import Mathlib

/-!
Shallow embedding of the annotation workflow engine of `app.py` (a Streamlit
tense-annotation tool).  Text is modelled as `List Char`; Python lists as
Lean lists; the external annotation store as a boolean outcome plus the list
of insert attempts; exceptions as `Except`.  Each definition is translated
from the source; deviations forced by the embedding (randomness, wall-clock
time) are recorded in the doc comments.
-/

/-- Terminal punctuation test, from the check `char in ".!?"` on line 63 of
app.py (string literal with the three characters dot, bang, question mark). -/
def isTerminal (c : Char) : Bool := c == '.' || c == '!' || c == '?'

/-- Whitespace as recognised by the Python str.strip default: space, tab,
newline, carriage return, vertical tab, form feed. -/
def isPySpace (c : Char) : Bool :=
  c == ' ' || c == '\t' || c == '\n' || c == '\r' || c == '\x0b' || c == '\x0c'

/-- Python str.strip on a character list: drop whitespace from both ends. -/
def pyStrip (l : List Char) : List Char :=
  ((l.dropWhile isPySpace).reverse.dropWhile isPySpace).reverse

/-- Loop body of split_into_sentences (app.py lines 58-68): accumulate
characters into a buffer; whenever the appended character is terminal
punctuation, flush the stripped buffer as a sentence; at end of input flush
the stripped buffer if it is non-empty.  The Python guard
`len(current) > 0` holds always, the append having just happened. -/
def splitAux : List Char → List Char → List (List Char)
  | [], current => if current.isEmpty then [] else [pyStrip current]
  | c :: rest, current =>
    if isTerminal c then pyStrip (current ++ [c]) :: splitAux rest []
    else splitAux rest (current ++ [c])

/-- split_into_sentences (app.py lines 56-70). -/
def split_into_sentences (text : List Char) : List (List Char) :=
  splitAux text []

/-- Same loop as `splitAux` but keeping the raw, unstripped buffers; used to
state that the sentences are strips of consecutive chunks of the input. -/
def chunksAux : List Char → List Char → List (List Char)
  | [], current => if current.isEmpty then [] else [current]
  | c :: rest, current =>
    if isTerminal c then (current ++ [c]) :: chunksAux rest []
    else chunksAux rest (current ++ [c])

/-- One row of the corpus file (columns used in app.py lines 383-390). -/
structure CorpusRow where
  text_corrected : List Char
  cefr : String
  learner_id : String
deriving DecidableEq

/-- One entry of processed_data (app.py lines 385-391). -/
structure AnnotationUnit where
  text_corrected : List Char
  sentence : List Char
  sentence_index : Nat
  cefr : String
  learner_id : String
deriving DecidableEq

/-- The record dict built by save_annotation (app.py lines 84-93). -/
structure AnnotationRecord where
  annotator_id : String
  sentence : List Char
  target_tense : String
  notes : String
  cefr_level : String
  original_text : List Char
  learner_id : String
  created_at : String
deriving DecidableEq

/-- The pieces of st.session_state the engine mutates: filtered_data
(None before a load, a possibly empty list after) and current_index
(app.py lines 336-339, 393-394). -/
structure SessionData where
  filtered_data : Option (List AnnotationUnit)
  current_index : Nat
deriving DecidableEq

/-- Units produced from one corpus row (app.py lines 383-391): one
AnnotationUnit per sentence of the segmenter output, sentence_index being
the position given by enumerate. -/
def buildRowUnits (row : CorpusRow) : List AnnotationUnit :=
  (split_into_sentences row.text_corrected).enum.map
    (fun p => AnnotationUnit.mk row.text_corrected p.2 p.1 row.cefr row.learner_id)

/-- processed_data for the whole sampled frame (app.py lines 380-391): the
per-row unit lists concatenated in row order. -/
def buildUnits (rows : List CorpusRow) : List AnnotationUnit :=
  (rows.map buildRowUnits).flatten

/-- pandas DataFrame.sample with n items, without replacement.  pandas
raises ValueError when n exceeds the population size; otherwise the result
is some length-n sublist chosen at random.  Randomness cannot live in a
shallow embedding, so the model returns the first n rows; the claims below
depend only on the length of the result, on membership and on the error
behaviour, which every without-replacement draw shares. -/
def pandasSampleN (rows : List CorpusRow) (n : Nat) : Except String (List CorpusRow) :=
  if n ≤ rows.length then Except.ok (rows.take n) else Except.error "ValueError"

/-- Line 379 of app.py:
`filtered_df = df[df["cefr"] == cefr_level].sample(n=min(sample_size, len(df)))`.
Note that the clamp uses the length of the WHOLE frame df, not of the
filtered frame. -/
def loadDataSample (df : List CorpusRow) (level : String) (size : Nat) :
    Except String (List CorpusRow) :=
  pandasSampleN (df.filter (fun r => r.cefr == level)) (min size df.length)

/-- The Load Data handler (app.py lines 371-395).  An empty level shows an
error message and returns with the state untouched; a failed load_data was
already caught inside load_data (lines 76-79), main sees None and does
nothing; otherwise the sample is drawn, segmented into units, and the state
is overwritten with the new worklist and index 0.  An exception escaping
the sample call is uncaught in main and is modelled as `Except.error`. -/
def applyLoad (s : SessionData) (level : String) (loadResult : Except String (List CorpusRow))
    (size : Nat) : Except String SessionData :=
  if level.data.isEmpty then Except.ok s
  else
    match loadResult with
    | Except.error _ => Except.ok s
    | Except.ok df =>
      (loadDataSample df level size).map
        (fun sampled => SessionData.mk (some (buildUnits sampled)) 0)

/-- The gate on the annotation interface (app.py line 398):
`if st.session_state.filtered_data:` — Python truthiness, so both None and
the empty list keep the interface hidden. -/
def uiShowsWorklist (s : SessionData) : Bool :=
  match s.filtered_data with
  | none => false
  | some l => !l.isEmpty

/-- The Next button handler (app.py lines 534-535): increment only while
strictly below len - 1. -/
def navNext (i len : Nat) : Nat := if i < len - 1 then i + 1 else i

/-- The Previous button handler (app.py lines 538-539): decrement only
while strictly above 0. -/
def navPrev (i : Nat) : Nat := if 0 < i then i - 1 else i

/-- Python str.startswith, on the underlying character lists. -/
def pyStartsWith (s pre : String) : Bool := pre.data.isPrefixOf s.data

/-- Lines 484-485 of app.py: a truthy selection that starts with the
category-separator marker is replaced by the empty string. -/
def processSelection (s : String) : String :=
  if !s.data.isEmpty && pyStartsWith s "------" then "" else s

/-- The validity test of line 519 of app.py: the selection is truthy and is
not a category separator. -/
def tenseValid (s : String) : Bool := !s.data.isEmpty && !(pyStartsWith s "------")

/-- save_annotation (app.py lines 81-98).  Builds the record dict from its
arguments, with created_at taken from datetime.now at the moment of the
call (passed here as `now`), and attempts exactly one insert; the store
outcome `storeOk` decides the returned boolean, a failure being reported,
not retried.  The second component lists the insert attempts made.  The
sentence_index argument is accepted but unused, as in the source. -/
def save_annotation (text : List Char) ( sentence_index : Nat) (tense : String)
    (cefr_level : String) (user_id : String) (notes : String)
    (original_text : List Char) ( learner_id : String) (now : String)
    (storeOk : Bool) : Bool × List AnnotationRecord :=
  (storeOk,
    [AnnotationRecord.mk user_id text tense notes cefr_level original_text learner_id now])

/-- The form submission path (app.py lines 470-532): the raw selectbox value
runs through the separator check of lines 484-485, then line 519 guards the
save_annotation call; an invalid selection shows an error and makes no store
call. -/
def handleFormSubmit (selectedRaw : String) (unit : AnnotationUnit)
    (notes annotator now : String) (storeOk : Bool) : Bool × List AnnotationRecord :=
  let selected := processSelection selectedRaw
  if tenseValid selected then
    save_annotation unit.sentence unit.sentence_index selected unit.cefr annotator notes
      unit.text_corrected unit.learner_id now storeOk
  else (false, [])

lemma splitAux_eq_map_chunks (text : List Char) :
    ∀ cur, splitAux text cur = (chunksAux text cur).map pyStrip := by
  induction text with
  | nil => intro cur; cases cur <;> simp [splitAux, chunksAux]
  | cons c rest ih =>
    intro cur
    simp only [splitAux, chunksAux]
    split <;> simp [ih]

lemma chunksAux_flatten (text : List Char) :
    ∀ cur, (chunksAux text cur).flatten = cur ++ text := by
  induction text with
  | nil => intro cur; cases cur <;> simp [chunksAux]
  | cons c rest ih =>
    intro cur
    simp only [chunksAux]
    split
    · simp [ih]
    · simp [ih]

lemma all_takeWhile (p : Char → Bool) (l : List Char) :
    (l.takeWhile p).all p = true := by
  induction l with
  | nil => rfl
  | cons c rest ih =>
    simp only [List.takeWhile]
    cases h : p c <;> simp [h, ih]

lemma pyStrip_decomp (l : List Char) :
    ∃ a b, a.all isPySpace = true ∧ b.all isPySpace = true ∧
      l = a ++ pyStrip l ++ b := by
  refine ⟨l.takeWhile isPySpace,
    ((l.dropWhile isPySpace).reverse.takeWhile isPySpace).reverse, ?_, ?_, ?_⟩
  · exact all_takeWhile _ _
  · rw [List.all_reverse]; exact all_takeWhile _ _
  · conv_lhs => rw [← List.takeWhile_append_dropWhile (p := isPySpace) (l := l)]
    rw [List.append_assoc]
    congr 1
    unfold pyStrip
    set m := l.dropWhile isPySpace with hm
    conv_lhs => rw [← m.reverse_reverse, ← List.takeWhile_append_dropWhile (p := isPySpace) (l := m.reverse)]
    rw [List.reverse_append]

lemma splitAux_no_terminal (ys : List Char) :
    ∀ cur, (∀ c ∈ ys, isTerminal c = false) → cur ++ ys ≠ [] →
      splitAux ys cur = [pyStrip (cur ++ ys)] := by
  induction ys with
  | nil =>
    intro cur _ hne
    simp only [List.append_nil] at hne ⊢
    simp only [splitAux]
    rw [if_neg]
    simpa using hne
  | cons y ys ih =>
    intro cur hnt _
    have hy : isTerminal y = false := hnt y (by simp)
    have hne2 : (cur ++ [y]) ++ ys ≠ [] := by
      simp [List.append_eq_nil]
    simp only [splitAux, hy, Bool.false_eq_true, if_false]
    rw [ih (cur ++ [y]) (fun c hc => hnt c (List.mem_cons_of_mem y hc)) hne2]
    simp

lemma splitAux_append_terminal (xs : List Char) :
    ∀ cur c rest, isTerminal c = true →
      splitAux (xs ++ c :: rest) cur = splitAux (xs ++ [c]) cur ++ splitAux rest [] := by
  induction xs with
  | nil =>
    intro cur c rest hc
    simp only [List.nil_append, splitAux, hc, if_true]
    simp [splitAux]
  | cons x xs ih =>
    intro cur c rest hc
    simp only [List.cons_append, splitAux, List.append_eq]
    split
    · rw [ih [] c rest hc, List.cons_append]
    · exact ih _ c rest hc

lemma pyStrip_all_space (l : List Char) (h : l.all isPySpace = true) :
    pyStrip l = [] := by
  unfold pyStrip
  rw [List.all_eq_true] at h
  rw [List.dropWhile_eq_nil_iff.mpr h]
  rfl

lemma buildRowUnits_length (row : CorpusRow) :
    (buildRowUnits row).length = (split_into_sentences row.text_corrected).length := by
  simp [buildRowUnits]

lemma buildRowUnits_map_idx (row : CorpusRow) :
    (buildRowUnits row).map (fun u => u.sentence_index) =
      List.range (split_into_sentences row.text_corrected).length := by
  unfold buildRowUnits
  rw [List.map_map]
  have hc : ((fun u : AnnotationUnit => u.sentence_index) ∘
      (fun p : Nat × List Char =>
        AnnotationUnit.mk row.text_corrected p.2 p.1 row.cefr row.learner_id)) =
      Prod.fst := rfl
  rw [hc, List.enum_map_fst]

lemma buildRowUnits_map_sentence (row : CorpusRow) :
    (buildRowUnits row).map (fun u => u.sentence) =
      split_into_sentences row.text_corrected := by
  unfold buildRowUnits
  rw [List.map_map]
  have hc : ((fun u : AnnotationUnit => u.sentence) ∘
      (fun p : Nat × List Char =>
        AnnotationUnit.mk row.text_corrected p.2 p.1 row.cefr row.learner_id)) =
      Prod.snd := rfl
  rw [hc, List.enum_map_snd]

lemma space_not_terminal (c : Char) (h : isPySpace c = true) : isTerminal c = false := by
  simp only [isPySpace, Bool.or_eq_true, beq_iff_eq] at h
  rcases h with ((((h | h) | h) | h) | h) | h <;> subst h <;> rfl

/-- C6: concatenating the produced sentences, re-inserting the whitespace
trimmed at each boundary, reconstructs the input; a non-empty input without
terminal punctuation yields exactly one sentence; and the worked example
splits as stated. -/
theorem C6_segmenter_reconstruction :
    (∀ text : List Char,
      (∃ chunks : List (List Char), chunks.flatten = text ∧
        split_into_sentences text = chunks.map pyStrip ∧
        ∀ ch ∈ chunks, ∃ a b, a.all isPySpace = true ∧ b.all isPySpace = true ∧
          ch = a ++ pyStrip ch ++ b) ∧
      (text ≠ [] → (∀ c ∈ text, isTerminal c = false) →
        (split_into_sentences text).length = 1)) ∧
    split_into_sentences "I go. He ran!".toList = ["I go.".toList, "He ran!".toList] := by
  constructor
  · intro text
    constructor
    · refine ⟨chunksAux text [], ?_, ?_, ?_⟩
      · simpa using chunksAux_flatten text []
      · exact splitAux_eq_map_chunks text []
      · intro ch _
        exact pyStrip_decomp ch
    · intro hne hnt
      rw [split_into_sentences, splitAux_no_terminal text [] hnt (by simpa using hne)]
      rfl
  · decide

theorem C6_segmenter_reconstruction_witness :
    (split_into_sentences "abc".toList).length = 1 :=
  (C6_segmenter_reconstruction.1 "abc".toList).2 (by decide) (by decide)

/-- C10: when the last terminal punctuation character of the text is
followed only by whitespace, the segmenter emits a final empty sentence, and
the unit builder then produces an AnnotationUnit whose sentence is empty. -/
theorem C10_trailing_space_empty_sentence :
    ∀ (pre ws : List Char) (c : Char) (cefr lid : String),
      isTerminal c = true → ws ≠ [] → ws.all isPySpace = true →
      (split_into_sentences (pre ++ c :: ws)).getLast? = some [] ∧
      ∃ u ∈ buildRowUnits (CorpusRow.mk (pre ++ c :: ws) cefr lid), u.sentence = [] := by
  intro pre ws c cefr lid hc hws hall
  have hnt : ∀ x ∈ ws, isTerminal x = false := by
    rw [List.all_eq_true] at hall
    exact fun x hx => space_not_terminal x (hall x hx)
  have hstrip : pyStrip ws = [] := pyStrip_all_space ws hall
  have hsplit : split_into_sentences (pre ++ c :: ws) = splitAux (pre ++ [c]) [] ++ [[]] := by
    rw [split_into_sentences, splitAux_append_terminal pre [] c ws hc,
        splitAux_no_terminal ws [] hnt (by simpa using hws)]
    simp [hstrip]
  constructor
  · rw [hsplit]
    exact List.getLast?_concat _
  · have hmap : (buildRowUnits (CorpusRow.mk (pre ++ c :: ws) cefr lid)).map
        (fun u => u.sentence) = split_into_sentences (pre ++ c :: ws) :=
      buildRowUnits_map_sentence _
    have hmem : ([] : List Char) ∈ (buildRowUnits (CorpusRow.mk (pre ++ c :: ws) cefr lid)).map
        (fun u => u.sentence) := by
      rw [hmap, hsplit]; simp
    obtain ⟨u, hu, hus⟩ := List.mem_map.mp hmem
    exact ⟨u, hu, hus⟩

theorem C10_trailing_space_empty_sentence_witness :
    (split_into_sentences (['H', 'i'] ++ '.' :: [' '])).getLast? = some [] :=
  (C10_trailing_space_empty_sentence ['H', 'i'] [' '] '.' "A1" "L1"
    (by decide) (by decide) (by decide)).1

/-- C8: the worklist builder emits, for every row, one unit per segmenter
sentence with sentence_index 0..k-1 in order; rows are concatenated in
order, and the worklist length is the sum of the per-row segment counts, so
rows with identical sentences are not deduplicated. -/
theorem C8_unit_builder :
    ∀ rows : List CorpusRow,
      buildUnits rows = (rows.map buildRowUnits).flatten ∧
      (buildUnits rows).length =
        (rows.map (fun r => (split_into_sentences r.text_corrected).length)).sum ∧
      ∀ row ∈ rows,
        (buildRowUnits row).length = (split_into_sentences row.text_corrected).length ∧
        (buildRowUnits row).map (fun u => u.sentence_index) =
          List.range (split_into_sentences row.text_corrected).length ∧
        (buildRowUnits row).map (fun u => u.sentence) =
          split_into_sentences row.text_corrected := by
  intro rows
  refine ⟨rfl, ?_, ?_⟩
  · rw [buildUnits, List.length_flatten, List.map_map]
    have hc : (List.length ∘ buildRowUnits) =
        (fun r => (split_into_sentences r.text_corrected).length) :=
      funext fun r => buildRowUnits_length r
    rw [hc]
  · intro row _
    exact ⟨buildRowUnits_length row, buildRowUnits_map_idx row, buildRowUnits_map_sentence row⟩

theorem C8_unit_builder_witness :
    (buildRowUnits (CorpusRow.mk "Hi. Go.".toList "A1" "L1")).map (fun u => u.sentence_index) =
      List.range 2 ∧
    (buildUnits [CorpusRow.mk "Hi. Go.".toList "A1" "L1",
                 CorpusRow.mk "Hi. Go.".toList "A1" "L1"]).length = 4 := by
  have h := C8_unit_builder [CorpusRow.mk "Hi. Go.".toList "A1" "L1",
                             CorpusRow.mk "Hi. Go.".toList "A1" "L1"]
  constructor
  · have h2 := (h.2.2 (CorpusRow.mk "Hi. Go.".toList "A1" "L1") (by simp)).2.1
    have hlen : (split_into_sentences ("Hi. Go.".toList)).length = 2 := by decide
    rw [h2, hlen]
  · rw [h.2.1]
    decide

/-- C7: with a non-empty worklist loaded and the cursor in range, Next moves
the cursor to min(i+1, len-1) and Previous to max(i-1, 0), both no-ops at
their boundary; both keep the cursor in range; and a successful load always
sets the cursor to 0. -/
theorem C7_navigation_bounds :
    ∀ (wl : List AnnotationUnit) (i : Nat), wl ≠ [] → i < wl.length →
      navNext i wl.length = min (i + 1) (wl.length - 1) ∧
      navPrev i = max (i - 1) 0 ∧
      navNext i wl.length < wl.length ∧
      navPrev i < wl.length ∧
      (∀ (s : SessionData) (df : List CorpusRow) (level : String) (size : Nat)
        (sampled : List CorpusRow),
        level.data.isEmpty = false → loadDataSample df level size = Except.ok sampled →
        applyLoad s level (Except.ok df) size =
          Except.ok (SessionData.mk (some (buildUnits sampled)) 0)) := by
  intro wl i hne hi
  have hlen : 0 < wl.length := List.length_pos.mpr hne
  refine ⟨?_, ?_, ?_, ?_, ?_⟩
  · unfold navNext; split <;> omega
  · unfold navPrev; split <;> omega
  · unfold navNext; split <;> omega
  · unfold navPrev; split <;> omega
  · intro s df level size sampled hlevel hsample
    simp [applyLoad, hlevel, hsample, Except.map]

theorem C7_navigation_bounds_witness :
    navNext 0 (List.length [AnnotationUnit.mk [] [] 0 "" ""]) <
      List.length [AnnotationUnit.mk [] [] 0 "" ""] ∧
    navPrev 0 = max (0 - 1) 0 := by
  have h := C7_navigation_bounds [AnnotationUnit.mk [] [] 0 "" ""] 0 (by simp) (by simp)
  exact ⟨h.2.2.1, h.2.1⟩

/-- C1: the claim fails on the code.  With a two-row corpus holding one A1
row and one B1 row, requesting level A1 with size 2 makes line 379 clamp to
min(2, len(df)) = 2 — the length of the whole frame, not of the filtered
frame — so the sample call raises ValueError instead of returning the
min(2, 1) = 1 matching row that the claim promises. -/
theorem C1_sampler_clamp_bug :
    loadDataSample [CorpusRow.mk "a.".toList "A1" "L1",
                    CorpusRow.mk "b.".toList "B1" "L2"] "A1" 2 =
      Except.error "ValueError" ∧
    min 2 (List.length (List.filter (fun r => r.cefr == "A1")
      [CorpusRow.mk "a.".toList "A1" "L1", CorpusRow.mk "b.".toList "B1" "L2"])) = 1 := by
  constructor
  · rfl
  · rfl

/-- C2 counterexample: with one B1 row and requested level A1, the sample
call fails and the resulting exception leaves the Load Data handler as an
uncaught error, not as a recovered message; no EmptyLevelError exists in
the code. -/
theorem C2_empty_level_uncaught :
    applyLoad (SessionData.mk none 0) "A1"
      (Except.ok [CorpusRow.mk "b.".toList "B1" "L2"]) 1 = Except.error "ValueError" := rfl

/-- C2 amended: whenever the corpus is non-empty, the requested level is
non-empty and matches no row, and the size is at least 1, the sample call
raises ValueError and the exception propagates uncaught out of the Load
Data handler. -/
theorem C2_empty_level_error_propagates :
    ∀ (s : SessionData) (df : List CorpusRow) (level : String) (size : Nat),
      level.data.isEmpty = false → df ≠ [] → 1 ≤ size →
      List.filter (fun r => r.cefr == level) df = [] →
      applyLoad s level (Except.ok df) size = Except.error "ValueError" := by
  intro s df level size hlevel hdf hsize hfilter
  have hlen : 0 < df.length := List.length_pos.mpr hdf
  have hmin : 0 < min size df.length := by omega
  simp only [applyLoad, hlevel, Bool.false_eq_true, if_false, loadDataSample, hfilter,
    pandasSampleN, List.length_nil]
  rw [if_neg (by omega)]
  rfl

theorem C2_empty_level_error_propagates_witness :
    applyLoad (SessionData.mk none 0) "B2"
      (Except.ok [CorpusRow.mk "c.".toList "C1" "L3"]) 5 = Except.error "ValueError" :=
  C2_empty_level_error_propagates (SessionData.mk none 0) [CorpusRow.mk "c.".toList "C1" "L3"]
    "B2" 5 (by decide) (by decide) (by decide) (by decide)

/-- C3 counterexample: a corpus row whose text is empty yields zero units,
yet the load handler installs the empty list as the session worklist with a
success message; the state does not remain Unloaded and no
EmptyWorkListError exists in the code. -/
theorem C3_empty_worklist_installed :
    applyLoad (SessionData.mk none 0) "A1"
      (Except.ok [CorpusRow.mk [] "A1" "L1"]) 1 =
      Except.ok (SessionData.mk (some []) 0) ∧
    some ([] : List AnnotationUnit) ≠ none := by
  constructor
  · rfl
  · simp

/-- C3 amended: a successful load installs whatever units were built — the
empty list included — and resets the cursor to 0; the annotation interface
then stays hidden only because line 398 tests the list for Python
truthiness. -/
theorem C3_empty_worklist_not_rejected :
    ∀ (s : SessionData) (df : List CorpusRow) (level : String) (size : Nat)
      (sampled : List CorpusRow),
      level.data.isEmpty = false →
      loadDataSample df level size = Except.ok sampled →
      buildUnits sampled = [] →
      applyLoad s level (Except.ok df) size = Except.ok (SessionData.mk (some []) 0) ∧
      uiShowsWorklist (SessionData.mk (some []) 0) = false := by
  intro s df level size sampled hlevel hsample hunits
  constructor
  · simp [applyLoad, hlevel, hsample, hunits, Except.map]
  · rfl

theorem C3_empty_worklist_not_rejected_witness :
    applyLoad (SessionData.mk none 0) "A1" (Except.ok [CorpusRow.mk [] "A1" "L9"]) 1 =
      Except.ok (SessionData.mk (some []) 0) :=
  (C3_empty_worklist_not_rejected (SessionData.mk none 0) [CorpusRow.mk [] "A1" "L9"] "A1" 1
    [CorpusRow.mk [] "A1" "L9"] (by decide) (by rfl) (by rfl)).1

/-- C4: an empty or category-separator tense selection is rejected with an
error message and makes zero insert attempts on the annotation store. -/
theorem C4_invalid_tense_rejected :
    ∀ (selectedRaw : String) (unit : AnnotationUnit) (notes annotator now : String)
      (storeOk : Bool),
      (selectedRaw = "" ∨ pyStartsWith selectedRaw "------" = true) →
      handleFormSubmit selectedRaw unit notes annotator now storeOk = (false, []) := by
  intro selectedRaw unit notes annotator now storeOk h
  rcases h with rfl | h
  · rfl
  · by_cases he : selectedRaw.data.isEmpty
    · simp [handleFormSubmit, processSelection, tenseValid, he, h]
    · simp [handleFormSubmit, processSelection, tenseValid, he, h]

theorem C4_invalid_tense_rejected_witness :
    handleFormSubmit "------ Simple Forms ------" (AnnotationUnit.mk [] [] 0 "A1" "L1")
      "" "user1" "2024-01-01T00:00:00" true = (false, []) :=
  C4_invalid_tense_rejected "------ Simple Forms ------" (AnnotationUnit.mk [] [] 0 "A1" "L1")
    "" "user1" "2024-01-01T00:00:00" true (Or.inr (by decide))

/-- C5: a valid tense selection makes exactly one insert attempt — also
when the store fails, so there is no automatic retry — and the attempted
record carries the seven data fields verbatim from the call, with
created_at taken at submission time. -/
theorem C5_persister_single_attempt :
    ∀ (selectedRaw : String) (unit : AnnotationUnit) (notes annotator now : String)
      (storeOk : Bool),
      tenseValid selectedRaw = true →
      handleFormSubmit selectedRaw unit notes annotator now storeOk =
        (storeOk,
          [AnnotationRecord.mk annotator unit.sentence selectedRaw notes unit.cefr
            unit.text_corrected unit.learner_id now]) := by
  intro selectedRaw unit notes annotator now storeOk hv
  have hv2 := hv
  simp only [tenseValid, Bool.and_eq_true, Bool.not_eq_true'] at hv2
  have hsel : processSelection selectedRaw = selectedRaw := by
    simp [processSelection, hv2.2]
  simp [handleFormSubmit, hsel, hv, save_annotation]

theorem C5_persister_single_attempt_witness :
    handleFormSubmit "Past Simple"
      (AnnotationUnit.mk "I went.".toList "I went.".toList 0 "A1" "L1")
      "note" "user1" "2024-01-01T00:00:00" false =
      (false,
        [AnnotationRecord.mk "user1" "I went.".toList "Past Simple" "note" "A1"
          "I went.".toList "L1" "2024-01-01T00:00:00"]) :=
  C5_persister_single_attempt "Past Simple"
    (AnnotationUnit.mk "I went.".toList "I went.".toList 0 "A1" "L1")
    "note" "user1" "2024-01-01T00:00:00" false (by decide)

/-- C9: the persisted record and the returned result do not depend on the
sentence_index argument: two calls differing only there coincide. -/
theorem C9_sentence_index_ignored :
    ∀ (text : List Char) (i j : Nat) (tense cefr_level user_id notes : String)
      (original_text : List Char) (lid now : String) (storeOk : Bool),
      save_annotation text i tense cefr_level user_id notes original_text lid now storeOk =
      save_annotation text j tense cefr_level user_id notes original_text lid now storeOk := by
  intro text i j tense cefr user notes orig lid now storeOk
  rfl
